import Mathlib

/-!
Verification development for the push-down-out-of-stock application.

The definitions below are a shallow embedding of the TypeScript sources:

* `app/utils/supervisor.client.ts` — collection states, state equality,
  operation tags, tag validation, difference detection;
* `app/utils/operation-manager.client.ts` (shipped inside
  `app/entry.server.tsx`) — operation status machinery, tagged form data;
* `app/hooks/useSupervisor.ts` (first, queue-serialised revision) — the
  supervisor transition functions `processQueue`, `runSupervisor` and the
  fetcher-response handler;
* `app/services/collection-sorting.server.ts` — the sort engine
  (`shouldExcludeProduct`, `sortProductsWithInventory`) and the reorder
  client (`updateCollectionSortOrder`, `waitForJobCompletion`,
  `reorderCollectionProducts`), with the remote Shopify admin modelled as
  an oracle of GraphQL outcomes;
* `app/routes/app.collections.tsx` (supervisor-era revision) — the
  `updateSetting` server action.

JavaScript objects used as string-keyed maps are modelled as association
lists (`List (String × α)`); object spread `{...prev, [k]: v}` keeps an
existing key in place and appends a new one, which `setEntry` mirrors.
`Date.now()` is modelled by an explicit `now : Nat` argument.
-/

/-! ### Data model (supervisor.client.ts) -/

/-- `CollectionState` from `supervisor.client.ts`:
`{enabled: boolean, sortType: string, exclusionTags: string[]}`. -/
structure CollectionState where
  enabled : Bool
  sortType : String
  exclusionTags : List String
deriving DecidableEq, Repr

/-- Operation tag created by `createOperationTag`:
`{collectionId, targetState, timestamp}`. -/
structure OperationTag where
  collectionId : String
  targetState : CollectionState
  timestamp : Nat
deriving DecidableEq, Repr

/-- Association-list lookup, modelling `obj[key]` on a JS object. -/
def lookupEntry {α : Type} : List (String × α) → String → Option α
  | [], _ => none
  | (k', v) :: rest, k => if k' = k then some v else lookupEntry rest k

/-- Association-list update, modelling `{...prev, [k]: v}`: an existing key
keeps its position, a new key is appended. -/
def setEntry {α : Type} : List (String × α) → String → α → List (String × α)
  | [], k, v => [(k, v)]
  | (k', v') :: rest, k, v =>
      if k' = k then (k, v) :: rest else (k', v') :: setEntry rest k v

/-- Association-list deletion, modelling `delete obj[k]`. -/
def removeEntry {α : Type} : List (String × α) → String → List (String × α)
  | [], _ => []
  | (k', v') :: rest, k =>
      if k' = k then rest else (k', v') :: removeEntry rest k

/-- `areStatesEqual` from `supervisor.client.ts`: field-wise comparison with
the exclusion-tag lists sorted first (`[...tags].sort()`), then compared
index by index after a length check.  JavaScript's `Array.prototype.sort`
on strings is modelled by `List.insertionSort` under the lexicographic
string order. -/
def areStatesEqual (state1 state2 : CollectionState) : Bool :=
  if state1.enabled != state2.enabled then false
  else if state1.sortType != state2.sortType then false
  else
    let tags1 := state1.exclusionTags.insertionSort (· ≤ ·)
    let tags2 := state2.exclusionTags.insertionSort (· ≤ ·)
    if tags1.length != tags2.length then false
    else (tags1.zip tags2).all (fun p => p.1 == p.2)

/-- `createOperationTag` from `supervisor.client.ts`. -/
def createOperationTag (collectionId : String) (targetState : CollectionState)
    (now : Nat) : OperationTag :=
  { collectionId := collectionId, targetState := targetState, timestamp := now }

/-- `isTagValid` from `supervisor.client.ts`: a response tag is valid when it
carries a (truthy) collection id, that collection exists in the current UI
state, and the tag's target state `areStatesEqual`-matches the current UI
state.  The JS falsy checks on a missing tag object are handled at the call
site (`Option OperationTag`); a falsy `collectionId` is the empty string. -/
def isTagValid (responseTag : OperationTag)
    (currentUIState : List (String × CollectionState)) : Bool :=
  if responseTag.collectionId = "" then false
  else
    match lookupEntry currentUIState responseTag.collectionId with
    | none => false
    | some currentState => areStatesEqual currentState responseTag.targetState

/-- `StateDifference` from `supervisor.client.ts`. -/
structure StateDifference where
  collectionId : String
  currentState : CollectionState
  targetState : CollectionState
  operationType : String
deriving DecidableEq, Repr

/-- `detectStateDifferences` from `supervisor.client.ts`: for each collection
in the UI state, report a difference when no implemented state exists or when
the two states are not `areStatesEqual`. -/
def detectStateDifferences (uiState implementedState : List (String × CollectionState)) :
    List StateDifference :=
  uiState.filterMap fun e =>
    let collectionId := e.1
    let targetState := e.2
    match lookupEntry implementedState collectionId with
    | none =>
        some { collectionId := collectionId
               currentState := { enabled := false, sortType := "bestsellers", exclusionTags := [] }
               targetState := targetState
               operationType := if targetState.enabled then "save-and-sort" else "save" }
    | some currentState =>
        if areStatesEqual currentState targetState then none
        else
          some { collectionId := collectionId
                 currentState := currentState
                 targetState := targetState
                 operationType := if targetState.enabled then "save-and-sort" else "save" }

/-! ### Operation manager (operation-manager.client.ts) -/

/-- The `status` literals of `OperationStatus`. -/
inductive OpPhase where
  | idle
  | processing
  | ready
  | error
  | retry
deriving DecidableEq, Repr

/-- Server sort statistics attached to a successful response. -/
structure SortStats where
  inStockCount : Nat
  outOfStockCount : Nat
  totalProducts : Nat
deriving DecidableEq, Repr

/-- `OperationStatus` from `operation-manager.client.ts`. -/
structure OperationStatus where
  status : OpPhase
  timestamp : Nat
  retryCount : Nat
  lastError : Option String
  serverResponseData : Option SortStats
deriving DecidableEq, Repr

/-- `initializeOperationStatus`: a fresh `processing` status with
`retryCount = 0`. -/
def initializeOperationStatus (now : Nat) : OperationStatus :=
  { status := .processing, timestamp := now, retryCount := 0
    lastError := none, serverResponseData := none }

/-- `updateOperationStatus`: `ready` on success; on failure `retry` while
`retryCount < 2` else `error`, incrementing `retryCount`. -/
def updateOperationStatus (currentStatus : OperationStatus) (success : Bool)
    (error : Option String) (now : Nat) : OperationStatus :=
  if success then
    { currentStatus with status := .ready, timestamp := now, lastError := none }
  else
    let shouldRetry := currentStatus.retryCount < 2
    { currentStatus with
        status := if shouldRetry then .retry else .error
        timestamp := now
        retryCount := currentStatus.retryCount + 1
        lastError := error }

/-- `isOperationTimedOut`: a `processing` status older than 10 000 ms. -/
def isOperationTimedOut (status : OperationStatus) (now : Nat) : Bool :=
  status.status == .processing && decide (now - status.timestamp > 10000)

/-- `shouldCleanupStatus`: a `ready`/`error` status older than 3 000 ms. -/
def shouldCleanupStatus (status : OperationStatus) (now : Nat) : Bool :=
  (status.status == .ready || status.status == .error) &&
    decide (now - status.timestamp > 3000)

/-- The parsed `updateSetting` request submitted by `createTaggedFormData`
and read back by the server action: `{collectionId, enabled, sortType,
exclusionTags, operationTag}` (the form-data / JSON round trip is modelled
as the identity). -/
structure UpdateSettingRequest where
  collectionId : String
  enabled : Bool
  sortType : String
  exclusionTags : List String
  operationTag : Option OperationTag
deriving DecidableEq, Repr

/-- `createTaggedFormData`: builds the tag with `createOperationTag` and the
form payload carrying the collection's target state plus the serialised tag. -/
def createTaggedFormData (collectionId : String) (targetState : CollectionState)
    (now : Nat) : UpdateSettingRequest × OperationTag :=
  let tag := createOperationTag collectionId targetState now
  ({ collectionId := collectionId
     enabled := targetState.enabled
     sortType := targetState.sortType
     exclusionTags := targetState.exclusionTags
     operationTag := some tag }, tag)

/-! ### Supervisor hook transition system (useSupervisor.ts, queue revision) -/

/-- A queued operation (`useSupervisor.ts`). -/
structure Operation where
  collectionId : String
  targetState : CollectionState
deriving DecidableEq, Repr

/-- The mutable state owned by `useSupervisor`: the two state stores, the
per-collection operation statuses, the serialised operation queue
(`operationQueueRef`) and the `isProcessingRef` lock. -/
structure SupervisorState where
  uiState : List (String × CollectionState)
  implementedState : List (String × CollectionState)
  operationStatus : List (String × OperationStatus)
  queue : List Operation
  isProcessing : Bool
deriving DecidableEq, Repr

/-- The parsed server action response read by the fetcher-response handler:
`{success, operationTag, error?, stats?}`. -/
structure FetcherResponse where
  success : Bool
  operationTag : Option OperationTag
  error : Option String
  stats : Option SortStats
deriving DecidableEq, Repr

/-- `processQueue` from `useSupervisor.ts`: when not already processing and
the queue is non-empty, shift the next operation, mark the slot processing
with a fresh `initializeOperationStatus`, and submit the tagged form data.
The emitted request (if any) is returned alongside the new state. -/
def processQueue (s : SupervisorState) (now : Nat) :
    SupervisorState × Option UpdateSettingRequest :=
  if s.isProcessing || s.queue.isEmpty then (s, none)
  else
    match s.queue with
    | [] => (s, none)
    | operation :: rest =>
        let formData := (createTaggedFormData operation.collectionId operation.targetState now).1
        ({ s with
             isProcessing := true
             queue := rest
             operationStatus :=
               setEntry s.operationStatus operation.collectionId
                 (initializeOperationStatus now) },
         some formData)

/-- `runSupervisor` from `useSupervisor.ts`: detect differences, enqueue each
difference whose collection is neither currently `processing` nor already
queued, then call `processQueue`. -/
def runSupervisor (s : SupervisorState) (now : Nat) :
    SupervisorState × Option UpdateSettingRequest :=
  let differences := detectStateDifferences s.uiState s.implementedState
  let queue' := differences.foldl
    (fun q d =>
      let isAlreadyProcessing :=
        match lookupEntry s.operationStatus d.collectionId with
        | some st => st.status == .processing
        | none => false
      let isAlreadyInQueue := q.any (fun op => op.collectionId == d.collectionId)
      if !isAlreadyProcessing && !isAlreadyInQueue then
        q ++ [{ collectionId := d.collectionId, targetState := d.targetState }]
      else q)
    s.queue
  processQueue { s with queue := queue' } now

/-- The fetcher-response effect of `useSupervisor.ts` (lines 129–176): if the
response carries no usable tag, unlock the queue; if the tag is valid against
the current UI state, set `implementedState[cid]` to the current UI state and
update the operation status from `success`/`error` (attaching `stats` on
success); otherwise ignore the response entirely.  In every case the
processing lock is released and `processQueue` runs. -/
def handleFetcherResponse (s : SupervisorState) (resp : FetcherResponse)
    (now : Nat) : SupervisorState × Option UpdateSettingRequest :=
  match resp.operationTag with
  | none => processQueue { s with isProcessing := false } now
  | some responseTag =>
      if responseTag.collectionId = "" then
        processQueue { s with isProcessing := false } now
      else
        let collectionId := responseTag.collectionId
        if isTagValid responseTag s.uiState then
          let implemented' :=
            match lookupEntry s.uiState collectionId with
            | some st => setEntry s.implementedState collectionId st
            | none => s.implementedState
          let base :=
            (lookupEntry s.operationStatus collectionId).getD
              (initializeOperationStatus now)
          let updatedStatus := updateOperationStatus base resp.success resp.error now
          let updatedStatus :=
            if resp.success && resp.stats.isSome then
              { updatedStatus with serverResponseData := resp.stats }
            else updatedStatus
          processQueue
            { s with
                implementedState := implemented'
                operationStatus := setEntry s.operationStatus collectionId updatedStatus
                isProcessing := false } now
        else
          processQueue { s with isProcessing := false } now

/-! ### Product sort engine (collection-sorting.server.ts) -/

/-- `ProductVariant` from `collection-sorting.server.ts`. -/
structure ProductVariant where
  id : String
  inventoryQuantity : Int
  availableForSale : Bool
deriving DecidableEq, Repr

/-- `ProductForSorting` from `collection-sorting.server.ts`. -/
structure ProductForSorting where
  id : String
  title : String
  handle : String
  tags : List String
  variants : List ProductVariant
  isInStock : Bool
deriving DecidableEq, Repr

/-- The stock computation of `fetchCollectionProducts` (line 156): a product
is in stock when some variant is available for sale. -/
def computeIsInStock (variants : List ProductVariant) : Bool :=
  variants.any (fun variant => variant.availableForSale)

/-- `String.prototype.toLowerCase`, modelled character-wise so that it
evaluates by kernel reduction. -/
def strToLower (s : String) : String := ⟨s.data.map Char.toLower⟩

/-- `shouldExcludeProduct`: with a non-empty exclusion list, lower-case every
product tag and test membership (`includes`, exact string equality) in the
configured exclusion tags.  Note that the configured tags themselves are NOT
lower-cased here. -/
def shouldExcludeProduct (product : ProductForSorting)
    (exclusionTags : List String) : Bool :=
  if exclusionTags.length = 0 then false
  else
    let productTagsLower := product.tags.map strToLower
    productTagsLower.any (fun tag => exclusionTags.contains tag)

/-- The two output buckets of `sortProductsWithInventory`. -/
structure SortBuckets where
  inStock : List ProductForSorting
  outOfStock : List ProductForSorting
deriving DecidableEq, Repr

/-- `sortProductsWithInventory`: the single-pass loop pushing each product to
`inStock` when `product.isInStock || isExcluded`, otherwise to `outOfStock`,
preserving input order within each bucket. -/
def sortProductsWithInventory (products : List ProductForSorting)
    (exclusionTags : List String) : SortBuckets :=
  match products with
  | [] => { inStock := [], outOfStock := [] }
  | product :: rest =>
      let r := sortProductsWithInventory rest exclusionTags
      if product.isInStock || shouldExcludeProduct product exclusionTags then
        { r with inStock := product :: r.inStock }
      else
        { r with outOfStock := product :: r.outOfStock }

/-- The downstream id order built by the `updateSetting` action
(`app.collections.tsx`): `[...inStock.map(p => p.id), ...outOfStock.map(p => p.id)]`. -/
def sortedProductIdsOf (buckets : SortBuckets) : List String :=
  buckets.inStock.map (fun p => p.id) ++ buckets.outOfStock.map (fun p => p.id)

/-! ### Reorder client (collection-sorting.server.ts) -/

/-- Outcome of one GraphQL admin call: a thrown network error, a top-level
`errors` array, a `userErrors` array, or a successful payload. -/
inductive GraphOutcome (α : Type) where
  | throws (msg : String)
  | errors (msg : String)
  | userErrors (msg : String)
  | ok (val : α)
deriving DecidableEq, Repr

/-- Outcome of one `getJob` poll inside `waitForJobCompletion`. -/
inductive PollOutcome where
  | throws (msg : String)
  | errors (msg : String)
  | notFound
  | status (done : Bool)
deriving DecidableEq, Repr

/-- The remote admin API modelled as an oracle of call outcomes:
`updateSortOrderResult` keyed by the requested sort order, the single
`collectionReorderProducts` outcome (the payload being the optional job as
`(id, done)`), and the outcome of the i-th job poll. -/
structure AdminModel where
  updateSortOrderResult : String → GraphOutcome Unit
  reorderResult : GraphOutcome (Option (String × Bool))
  jobPoll : Nat → PollOutcome

/-- The remote catalog state relevant to the ordering-mode claims: the
collection's current sort order key. -/
structure CatalogState where
  sortOrder : String
deriving DecidableEq, Repr

/-- Result of `updateCollectionSortOrder`: `{success, error?}`. -/
structure SortOrderResult where
  success : Bool
  error : Option String
deriving DecidableEq, Repr

/-- `updateCollectionSortOrder`: issue the `collectionUpdate` mutation with
the requested `sortOrder`; the catalog's sort order changes exactly when the
mutation succeeds. -/
def updateCollectionSortOrder (admin : AdminModel) (cat : CatalogState)
    (sortOrder : String) : SortOrderResult × CatalogState :=
  match admin.updateSortOrderResult sortOrder with
  | .throws msg =>
      ({ success := false, error := some ("Failed to update sort order: " ++ msg) }, cat)
  | .errors msg =>
      ({ success := false, error := some ("GraphQL error: " ++ msg) }, cat)
  | .userErrors msg =>
      ({ success := false, error := some ("Sort order error: " ++ msg) }, cat)
  | .ok _ =>
      ({ success := true, error := none }, { cat with sortOrder := sortOrder })

/-- Result of `waitForJobCompletion`: `{completed, timedOut}`. -/
structure WaitResult where
  completed : Bool
  timedOut : Bool
deriving DecidableEq, Repr

/-- The polling loop of `waitForJobCompletion`, one call per iteration; any
error or missing job breaks out of the loop, which then reports
`{completed: false, timedOut: true}`.  `fuel` is the number of loop
iterations still allowed by the deadline; `i` is the poll index. -/
def waitPolls (poll : Nat → PollOutcome) : Nat → Nat → WaitResult
  | 0, _ => { completed := false, timedOut := true }
  | fuel + 1, i =>
      match poll i with
      | .throws _ => { completed := false, timedOut := true }
      | .errors _ => { completed := false, timedOut := true }
      | .notFound => { completed := false, timedOut := true }
      | .status true => { completed := true, timedOut := false }
      | .status false => waitPolls poll fuel (i + 1)

/-- `waitForJobCompletion`: poll every `pollInterval` ms while the elapsed
time stays below `maxWaitTime` ms, i.e. at most
`⌈maxWaitTime / pollInterval⌉` polls (15 for the defaults 30 000 / 2 000). -/
def waitForJobCompletion (poll : Nat → PollOutcome)
    (maxWaitTime pollInterval : Nat) : WaitResult :=
  waitPolls poll ((maxWaitTime + pollInterval - 1) / pollInterval) 0

/-- Result of `reorderCollectionProducts`: `{success, jobId?, error?}`. -/
structure ReorderResult where
  success : Bool
  jobId : Option String
  error : Option String
deriving DecidableEq, Repr

/-- `reorderCollectionProducts`: force the collection to `MANUAL` sort order
(aborting on failure), build the move list, run the reorder mutation, wait
for the returned job when it is not already done, and return success with
the job id.  The sort order is never changed back afterwards, and the
`originalSortType` argument is never used for a mutation.  A job wait that
does not complete only logs a warning. -/
def reorderCollectionProducts (admin : AdminModel) (cat : CatalogState)
    (collectionId : String) (sortedProductIds : List String)
    (originalSortType : String) : ReorderResult × CatalogState :=
  let (sortOrderResult, cat1) := updateCollectionSortOrder admin cat "MANUAL"
  if !sortOrderResult.success then
    ({ success := false, jobId := none, error := sortOrderResult.error }, cat1)
  else
    let _moves := sortedProductIds.enum.map (fun p => (p.2, toString p.1))
    match admin.reorderResult with
    | .throws msg =>
        ({ success := false, jobId := none
           error := some ("Failed to reorder: " ++ msg) }, cat1)
    | .errors msg =>
        ({ success := false, jobId := none
           error := some ("GraphQL error: " ++ msg) }, cat1)
    | .userErrors msg =>
        ({ success := false, jobId := none
           error := some ("Reorder error: " ++ msg) }, cat1)
    | .ok job =>
        let jobId := job.map (fun j => j.1)
        let jobDone := (job.map (fun j => j.2)).getD false
        if jobId.isSome && !jobDone then
          let _jobResult := waitForJobCompletion admin.jobPoll 30000 2000
          ({ success := true, jobId := jobId, error := none }, cat1)
        else
          ({ success := true, jobId := jobId, error := none }, cat1)

/-! ### The updateSetting server action (app.collections.tsx, supervisor revision) -/

/-- Outcome of the database persistence steps (upsert + tag replacement):
either some awaited call throws, or they succeed. -/
inductive DbOutcome where
  | throws (msg : String)
  | ok
deriving DecidableEq, Repr

/-- Outcome of the sort pipeline run when the collection is enabled:
a thrown error (fetch or reorder), a failed reorder result, or success with
the computed statistics. -/
inductive SortPipelineOutcome where
  | throws (msg : String)
  | reorderFail (msg : String)
  | ok (stats : SortStats)
deriving DecidableEq, Repr

/-- The `updateSetting` action response: `{success, operationTag, error?, stats?}`. -/
structure ActionResponse where
  success : Bool
  operationTag : Option OperationTag
  error : Option String
  stats : Option SortStats
deriving DecidableEq, Repr

/-- The `updateSetting` branch of the server action (`app.collections.tsx`,
supervisor revision): parse the request (including `operationTag`), persist
the setting, and when `enabled` run the sort pipeline; every `json(...)`
return site carries the parsed `operationTag` back unchanged. -/
def updateSettingAction (req : UpdateSettingRequest) (db : DbOutcome)
    (sortOutcome : SortPipelineOutcome) : ActionResponse :=
  match db with
  | .throws msg =>
      { success := false, operationTag := req.operationTag
        error := some ("Failed to save setting: " ++ msg), stats := none }
  | .ok =>
      if req.enabled then
        match sortOutcome with
        | .throws msg =>
            { success := false, operationTag := req.operationTag
              error := some ("Failed to save setting: " ++ msg), stats := none }
        | .reorderFail msg =>
            { success := false, operationTag := req.operationTag
              error := some ("Settings saved but sort failed: " ++ msg), stats := none }
        | .ok stats =>
            { success := true, operationTag := req.operationTag
              error := none, stats := some stats }
      else
        { success := true, operationTag := req.operationTag
          error := none, stats := none }

/-! ### Helper lemmas -/

theorem sortProductsWithInventory_inStock_eq_filter
    (products : List ProductForSorting) (exclusionTags : List String) :
    (sortProductsWithInventory products exclusionTags).inStock =
      products.filter (fun p => p.isInStock || shouldExcludeProduct p exclusionTags) := by
  induction products with
  | nil => rfl
  | cons p rest ih =>
      cases hs : p.isInStock <;> cases he : shouldExcludeProduct p exclusionTags <;>
        simp [sortProductsWithInventory, List.filter_cons, hs, he, ih]

theorem sortProductsWithInventory_outOfStock_eq_filter
    (products : List ProductForSorting) (exclusionTags : List String) :
    (sortProductsWithInventory products exclusionTags).outOfStock =
      products.filter (fun p => !(p.isInStock || shouldExcludeProduct p exclusionTags)) := by
  induction products with
  | nil => rfl
  | cons p rest ih =>
      cases hs : p.isInStock <;> cases he : shouldExcludeProduct p exclusionTags <;>
        simp [sortProductsWithInventory, List.filter_cons, hs, he, ih]

theorem shouldExcludeProduct_iff_mem (p : ProductForSorting)
    (exclusionTags : List String) :
    shouldExcludeProduct p exclusionTags = true ↔
      ∃ t ∈ p.tags, strToLower t ∈ exclusionTags := by
  unfold shouldExcludeProduct
  by_cases hlen : exclusionTags.length = 0
  · have hnil : exclusionTags = [] := List.eq_nil_of_length_eq_zero hlen
    subst hnil
    simp
  · rw [if_neg hlen]
    simp [List.any_eq_true, List.mem_map]

theorem shouldExcludeProduct_lowered_iff
    (p : ProductForSorting) (exclusionTags : List String) :
    shouldExcludeProduct p (exclusionTags.map strToLower) = true ↔
      ∃ t ∈ p.tags, ∃ e ∈ exclusionTags, strToLower t = strToLower e := by
  rw [shouldExcludeProduct_iff_mem]
  constructor
  · rintro ⟨t, ht, hmem⟩
    rcases List.mem_map.mp hmem with ⟨e, he, hlow⟩
    exact ⟨t, ht, e, he, hlow.symm⟩
  · rintro ⟨t, ht, e, he, hlow⟩
    exact ⟨t, ht, List.mem_map.mpr ⟨e, he, hlow.symm⟩⟩

theorem sortProductsWithInventory_append_perm
    (products : List ProductForSorting) (exclusionTags : List String) :
    ((sortProductsWithInventory products exclusionTags).inStock ++
      (sortProductsWithInventory products exclusionTags).outOfStock).Perm products := by
  rw [sortProductsWithInventory_inStock_eq_filter,
    sortProductsWithInventory_outOfStock_eq_filter]
  exact List.filter_append_perm _ products

theorem zip_all_beq_iff (l1 l2 : List String) (h : l1.length = l2.length) :
    ((l1.zip l2).all fun p => p.1 == p.2) = true ↔ l1 = l2 := by
  induction l1 generalizing l2 with
  | nil => cases l2 <;> simp_all
  | cons a l ih =>
      cases l2 with
      | nil => simp_all
      | cons b m =>
          have hlen : l.length = m.length := by simpa using h
          simp [List.all_cons, Bool.and_eq_true, beq_iff_eq, ih m hlen]

theorem insertionSort_eq_iff_perm (l1 l2 : List String) :
    l1.insertionSort (· ≤ ·) = l2.insertionSort (· ≤ ·) ↔ l1.Perm l2 := by
  constructor
  · intro h
    have p1 := List.perm_insertionSort (· ≤ ·) l1
    have p2 := List.perm_insertionSort (· ≤ ·) l2
    exact p1.symm.trans (h ▸ p2)
  · intro h
    have hs1 := List.sorted_insertionSort (· ≤ ·) l1
    have hs2 := List.sorted_insertionSort (· ≤ ·) l2
    have hp : (l1.insertionSort (· ≤ ·)).Perm (l2.insertionSort (· ≤ ·)) :=
      (List.perm_insertionSort _ l1).trans (h.trans (List.perm_insertionSort _ l2).symm)
    exact List.eq_of_perm_of_sorted hp hs1 hs2

theorem areStatesEqual_eq_true_iff (s1 s2 : CollectionState) :
    areStatesEqual s1 s2 = true ↔
      s1.enabled = s2.enabled ∧ s1.sortType = s2.sortType ∧
        s1.exclusionTags.Perm s2.exclusionTags := by
  unfold areStatesEqual
  by_cases he : s1.enabled = s2.enabled
  · by_cases hst : s1.sortType = s2.sortType
    · simp only [he, hst, bne_self_eq_false, Bool.false_eq_true, if_false]
      by_cases hl : (s1.exclusionTags.insertionSort (· ≤ ·)).length =
          (s2.exclusionTags.insertionSort (· ≤ ·)).length
      · have hl' : s1.exclusionTags.length = s2.exclusionTags.length := by
          simpa [List.length_insertionSort] using hl
        rw [if_neg (by simp [List.length_insertionSort, hl'])]
        rw [zip_all_beq_iff _ _ hl, insertionSort_eq_iff_perm]
        simp [he, hst]
      · rw [if_pos (by simpa using hl)]
        simp only [Bool.false_eq_true, false_iff]
        intro hcon
        exact hl (by
          have hlen := hcon.2.2.length_eq
          simpa [List.length_insertionSort] using hlen)
    · simp [he, hst, bne_iff_ne]
  · simp [bne_iff_ne, he]

theorem processQueue_implementedState (s : SupervisorState) (now : Nat) :
    (processQueue s now).1.implementedState = s.implementedState := by
  unfold processQueue
  by_cases h : (s.isProcessing || s.queue.isEmpty) = true
  · simp [h]
  · cases hq : s.queue with
    | nil => simp [h, hq]
    | cons op rest =>
        have hp : s.isProcessing = false := by simpa [hq] using h
        simp [hq, hp]

/-- Claim C2: a response whose tag no longer matches the current Desired (UI)
state — in particular because the UI state for the tagged collection changed
while the operation was in flight — fails `isTagValid` and is discarded by
the fetcher-response handler without modifying Implemented State. -/
theorem stale_response_never_mutates_implementedState
    (s : SupervisorState) (resp : FetcherResponse) (tag : OperationTag) (now : Nat)
    (htag : resp.operationTag = some tag)
    (hstale : ∀ cur, lookupEntry s.uiState tag.collectionId = some cur →
      areStatesEqual cur tag.targetState = false) :
    isTagValid tag s.uiState = false ∧
      (handleFetcherResponse s resp now).1.implementedState = s.implementedState := by
  have hvalid : isTagValid tag s.uiState = false := by
    unfold isTagValid
    by_cases hc : tag.collectionId = ""
    · simp [hc]
    · rw [if_neg hc]
      cases hcur : lookupEntry s.uiState tag.collectionId with
      | none => rfl
      | some cur => exact hstale cur hcur
  refine ⟨hvalid, ?_⟩
  unfold handleFetcherResponse
  rw [htag]
  by_cases hc : tag.collectionId = ""
  · simp [hc, processQueue_implementedState]
  · simp [hc, hvalid, processQueue_implementedState]

/-- Witness for C2: a concrete superseded response (the UI state for `c1`
now has `enabled = true`, the in-flight tag targeted `enabled = false`) is
discarded and Implemented State is untouched. -/
theorem stale_response_never_mutates_implementedState_witness :
    isTagValid ⟨"c1", ⟨false, "bestsellers", []⟩, 0⟩
        [("c1", ⟨true, "bestsellers", []⟩)] = false ∧
      (handleFetcherResponse
        { uiState := [("c1", ⟨true, "bestsellers", []⟩)]
          implementedState := [("c1", ⟨false, "bestsellers", []⟩)]
          operationStatus := []
          queue := []
          isProcessing := true }
        { success := true
          operationTag := some ⟨"c1", ⟨false, "bestsellers", []⟩, 0⟩
          error := none
          stats := none } 5).1.implementedState
        = [("c1", ⟨false, "bestsellers", []⟩)] :=
  stale_response_never_mutates_implementedState
    { uiState := [("c1", ⟨true, "bestsellers", []⟩)]
      implementedState := [("c1", ⟨false, "bestsellers", []⟩)]
      operationStatus := []
      queue := []
      isProcessing := true }
    { success := true
      operationTag := some ⟨"c1", ⟨false, "bestsellers", []⟩, 0⟩
      error := none
      stats := none }
    ⟨"c1", ⟨false, "bestsellers", []⟩, 0⟩ 5 rfl
    (by
      intro cur hcur
      have hsome : some (⟨true, "bestsellers", []⟩ : CollectionState) = some cur := by
        simpa [lookupEntry] using hcur
      cases hsome
      decide)

/-- Claim C1 (code bug): the fetcher-response handler mutates Implemented
State for every tag-valid response, also when `success = false`.  At this
concrete input the response fails (`success = false`, tag still valid) and
`Implemented["c1"]` is overwritten with the UI state. -/
theorem implementedState_updated_on_failed_tag_valid_response :
    isTagValid ⟨"c1", ⟨true, "alpha_asc asc", []⟩, 0⟩
        [("c1", ⟨true, "alpha_asc asc", []⟩)] = true ∧
      (handleFetcherResponse
        { uiState := [("c1", ⟨true, "alpha_asc asc", []⟩)]
          implementedState := [("c1", ⟨false, "bestsellers", []⟩)]
          operationStatus := [("c1", initializeOperationStatus 0)]
          queue := []
          isProcessing := true }
        { success := false
          operationTag := some ⟨"c1", ⟨true, "alpha_asc asc", []⟩, 0⟩
          error := some "Network error"
          stats := none } 1).1.implementedState
        = [("c1", ⟨true, "alpha_asc asc", []⟩)] ∧
      [("c1", (⟨false, "bestsellers", []⟩ : CollectionState))] ≠
        [("c1", (⟨true, "alpha_asc asc", []⟩ : CollectionState))] := by
  decide

/-- Claim C4 (code bug): the status function alone does satisfy the retry
bound — three consecutive failure updates starting from a fresh status reach
`error` with `retryCount = 3` — but the hook breaks the bound: (a) every
dispatch in `processQueue` resets the slot to `initializeOperationStatus`
(`retryCount = 0`), also when the previous status was a `retry` with
`retryCount = 2`; and (b) after a tag-valid failure response the handler has
set Implemented = UI, so `runSupervisor` finds no difference, enqueues
nothing and never auto-redispatches: the operation is stuck at `retry`,
`retryCount = 1`, and the `error` phase is never reached automatically. -/
theorem retry_bound_broken_by_dispatch_reset :
    ((updateOperationStatus
        (updateOperationStatus
          (updateOperationStatus (initializeOperationStatus 0) false (some "e1") 1)
          false (some "e2") 2)
        false (some "e3") 3).status = OpPhase.error ∧
      (updateOperationStatus
        (updateOperationStatus
          (updateOperationStatus (initializeOperationStatus 0) false (some "e1") 1)
          false (some "e2") 2)
        false (some "e3") 3).retryCount = 3) ∧
    (processQueue
        { uiState := [("c1", ⟨true, "alpha_asc asc", []⟩)]
          implementedState := [("c1", ⟨false, "bestsellers", []⟩)]
          operationStatus := [("c1",
            { status := .retry, timestamp := 0, retryCount := 2
              lastError := some "e2", serverResponseData := none })]
          queue := [⟨"c1", ⟨true, "alpha_asc asc", []⟩⟩]
          isProcessing := false } 5).1.operationStatus
      = [("c1", initializeOperationStatus 5)] ∧
    (let s0 : SupervisorState :=
      { uiState := [("c1", ⟨true, "alpha_asc asc", []⟩)]
        implementedState := [("c1", ⟨false, "bestsellers", []⟩)]
        operationStatus := []
        queue := []
        isProcessing := false }
     let d1 := runSupervisor s0 0
     let s2 := (handleFetcherResponse d1.1
        { success := false
          operationTag := some (createOperationTag "c1" ⟨true, "alpha_asc asc", []⟩ 0)
          error := some "Network error"
          stats := none } 1).1
     d1.2 = some (createTaggedFormData "c1" ⟨true, "alpha_asc asc", []⟩ 0).1 ∧
       (lookupEntry s2.operationStatus "c1").map
          (fun st => (st.status, st.retryCount)) = some (OpPhase.retry, 1) ∧
       runSupervisor s2 2 = (s2, none)) := by
  decide

/-- Claim C3: every `updateSetting` action response carries the request's
`operationTag` back unchanged — the tag is a pure echo in all return paths of
the `{success, operationTag, error?, stats?}` response. -/
theorem updateSetting_response_echoes_operationTag
    (req : UpdateSettingRequest) (db : DbOutcome)
    (sortOutcome : SortPipelineOutcome) :
    (updateSettingAction req db sortOutcome).operationTag = req.operationTag := by
  unfold updateSettingAction
  cases db <;> cases sortOutcome <;> by_cases h : req.enabled <;> simp [h]

/-- Claim C5: `sortProductsWithInventory` is a stable two-bucket partition:
run on the lower-cased configured exclusion tags (as at its call sites), each
bucket is the order-preserving filter of the input by the keep predicate
`isInStock OR case-insensitive tag intersection`, both buckets are sublists
of the input, and the §8 scenario yields `keep=[B, C]`, `pushDown=[A]` with
downstream order `[B, C, A]`. -/
theorem sortProductsWithInventory_partition_correct_and_stable :
    (∀ (products : List ProductForSorting) (exclusionTags : List String),
      (sortProductsWithInventory products (exclusionTags.map strToLower)).inStock =
        products.filter (fun p =>
          p.isInStock || shouldExcludeProduct p (exclusionTags.map strToLower)) ∧
      (sortProductsWithInventory products (exclusionTags.map strToLower)).outOfStock =
        products.filter (fun p =>
          !(p.isInStock || shouldExcludeProduct p (exclusionTags.map strToLower))) ∧
      (sortProductsWithInventory products
        (exclusionTags.map strToLower)).inStock.Sublist products ∧
      (sortProductsWithInventory products
        (exclusionTags.map strToLower)).outOfStock.Sublist products ∧
      (∀ p : ProductForSorting,
        (p.isInStock || shouldExcludeProduct p (exclusionTags.map strToLower)) = true ↔
          p.isInStock = true ∨ ∃ t ∈ p.tags, ∃ e ∈ exclusionTags,
            strToLower t = strToLower e)) ∧
    (sortProductsWithInventory
        [⟨"A", "A", "a", [], [], false⟩, ⟨"B", "B", "b", [], [], true⟩,
          ⟨"C", "C", "c", ["preorder"], [], false⟩] ["preorder"] =
      { inStock := [⟨"B", "B", "b", [], [], true⟩,
                    ⟨"C", "C", "c", ["preorder"], [], false⟩]
        outOfStock := [⟨"A", "A", "a", [], [], false⟩] } ∧
      sortedProductIdsOf (sortProductsWithInventory
        [⟨"A", "A", "a", [], [], false⟩, ⟨"B", "B", "b", [], [], true⟩,
          ⟨"C", "C", "c", ["preorder"], [], false⟩] ["preorder"])
        = ["B", "C", "A"]) := by
  refine ⟨fun products exclusionTags => ?_, by decide⟩
  refine ⟨sortProductsWithInventory_inStock_eq_filter _ _,
    sortProductsWithInventory_outOfStock_eq_filter _ _, ?_, ?_, fun p => ?_⟩
  · rw [sortProductsWithInventory_inStock_eq_filter]
    exact List.filter_sublist _
  · rw [sortProductsWithInventory_outOfStock_eq_filter]
    exact List.filter_sublist _
  · rw [Bool.or_eq_true, shouldExcludeProduct_lowered_iff]

/-- Claim C6 (counterexample): the claimed symmetry fails — a product tagged
"preorder" matches the configured exclusion tag "PreOrder" up to letter case,
yet `shouldExcludeProduct` returns `false` because only the product's tags
are lower-cased, never the configured list. -/
theorem shouldExcludeProduct_not_symmetric_case_insensitive :
    shouldExcludeProduct ⟨"p1", "P", "p", ["preorder"], [], false⟩ ["PreOrder"] = false ∧
      ∃ t ∈ ["preorder"], ∃ e ∈ ["PreOrder"], strToLower t = strToLower e := by
  decide

/-- Claim C6 (amended): `shouldExcludeProduct` lower-cases only the product's
tags: it returns true iff some product tag, lower-cased, is literally an
element of the configured exclusion list.  In particular a product tagged
"PreOrder" is excluded by the (canonically lower-cased) configured tag
"preorder"; the converse direction of the original claim does not hold. -/
theorem shouldExcludeProduct_matches_lowered_product_tags :
    (∀ (p : ProductForSorting) (exclusionTags : List String),
      shouldExcludeProduct p exclusionTags = true ↔
        ∃ t ∈ p.tags, strToLower t ∈ exclusionTags) ∧
      shouldExcludeProduct ⟨"p2", "P", "p", ["PreOrder"], [], false⟩ ["preorder"] = true :=
  ⟨shouldExcludeProduct_iff_mem, by decide⟩

/-- Claim C9 (counterexample): `areStatesEqual` compares exclusion tags
case-sensitively — two states whose tag lists are equal as case-insensitive
sets (`["PreOrder"]` vs `["preorder"]`) are reported unequal. -/
theorem areStatesEqual_case_sensitive_counterexample :
    areStatesEqual ⟨false, "bestsellers", ["PreOrder"]⟩
        ⟨false, "bestsellers", ["preorder"]⟩ = false ∧
      (["PreOrder"].map strToLower) = (["preorder"].map strToLower) := by
  decide

/-- Claim C9 (amended): `areStatesEqual` is true exactly when `enabled` and
`sortType` agree and the exclusion-tag lists are permutations of each other
(order-insensitive multiset equality with case-sensitive, exact string
comparison of elements). -/
theorem areStatesEqual_iff_perm_exclusionTags (s1 s2 : CollectionState) :
    areStatesEqual s1 s2 = true ↔
      s1.enabled = s2.enabled ∧ s1.sortType = s2.sortType ∧
        s1.exclusionTags.Perm s2.exclusionTags :=
  areStatesEqual_eq_true_iff s1 s2

/-- Claim C10: `sortProductsWithInventory` neither drops nor duplicates a
product: `inStock ++ outOfStock` is a permutation of the input and the
bucket lengths sum to the input length. -/
theorem sortProductsWithInventory_is_permutation
    (products : List ProductForSorting) (exclusionTags : List String) :
    ((sortProductsWithInventory products exclusionTags).inStock ++
      (sortProductsWithInventory products exclusionTags).outOfStock).Perm products ∧
      (sortProductsWithInventory products exclusionTags).inStock.length +
        (sortProductsWithInventory products exclusionTags).outOfStock.length
        = products.length := by
  refine ⟨sortProductsWithInventory_append_perm products exclusionTags, ?_⟩
  have hperm := sortProductsWithInventory_append_perm products exclusionTags
  simpa using hperm.length_eq

theorem waitPolls_never_done (poll : Nat → PollOutcome)
    (h : ∀ i, poll i = .status false) :
    ∀ fuel i, waitPolls poll fuel i = { completed := false, timedOut := true } := by
  intro fuel
  induction fuel with
  | zero => intro i; rfl
  | succ n ih =>
      intro i
      simp only [waitPolls, h i]
      exact ih (i + 1)

/-- Claim C7: after a successful `reorderCollectionProducts` the collection's
remote sort order is `MANUAL`: the client switches to `MANUAL` before
submitting moves and never issues a later mode change, and its result does
not depend on the `originalSortType` argument at all. -/
theorem reorderCollectionProducts_keeps_manual_sort_order
    (admin : AdminModel) (cat : CatalogState) (collectionId : String)
    (sortedProductIds : List String) (originalSortType otherSortType : String)
    (hs : (reorderCollectionProducts admin cat collectionId sortedProductIds
      originalSortType).1.success = true) :
    (reorderCollectionProducts admin cat collectionId sortedProductIds
        originalSortType).2.sortOrder = "MANUAL" ∧
      reorderCollectionProducts admin cat collectionId sortedProductIds
          originalSortType
        = reorderCollectionProducts admin cat collectionId sortedProductIds
          otherSortType := by
  refine ⟨?_, rfl⟩
  unfold reorderCollectionProducts at hs ⊢
  unfold updateCollectionSortOrder at hs ⊢
  cases hup : admin.updateSortOrderResult "MANUAL" with
  | throws msg => rw [hup] at hs; simp at hs
  | errors msg => rw [hup] at hs; simp at hs
  | userErrors msg => rw [hup] at hs; simp at hs
  | ok u =>
      rw [hup] at hs
      cases hre : admin.reorderResult with
      | throws msg => rw [hre] at hs; simp at hs
      | errors msg => rw [hre] at hs; simp at hs
      | userErrors msg => rw [hre] at hs; simp at hs
      | ok job =>
          by_cases hj : ((job.map (fun j => j.1)).isSome &&
              !(job.map (fun j => j.2)).getD false) = true
          · simp [hj]
          · simp [hj]

/-- Witness for C7: a concrete fully-successful run ends with the catalog on
`MANUAL` sort order. -/
theorem reorderCollectionProducts_keeps_manual_sort_order_witness :
    (reorderCollectionProducts
        { updateSortOrderResult := fun _ => .ok ()
          reorderResult := .ok (some ("job1", true))
          jobPoll := fun _ => .status true }
        { sortOrder := "BEST_SELLING" } "c1" ["p1", "p2"]
        "bestsellers asc").2.sortOrder = "MANUAL" :=
  (reorderCollectionProducts_keeps_manual_sort_order
    { updateSortOrderResult := fun _ => .ok ()
      reorderResult := .ok (some ("job1", true))
      jobPoll := fun _ => .status true }
    { sortOrder := "BEST_SELLING" } "c1" ["p1", "p2"]
    "bestsellers asc" "alpha_asc asc" rfl).1

/-- Claim C8: when the mode switch and the move submission succeed but the
returned job is never reported done, the polling loop exhausts its
30 000 ms / 2 000 ms window reporting `{completed := false, timedOut := true}`
and `reorderCollectionProducts` still returns `success = true` with the job
id — a job-wait timeout is not a failure of the operation. -/
theorem reorder_job_timeout_still_reports_success
    (admin : AdminModel) (cat : CatalogState) (collectionId jobId : String)
    (sortedProductIds : List String) (originalSortType : String)
    (h1 : admin.updateSortOrderResult "MANUAL" = .ok ())
    (h2 : admin.reorderResult = .ok (some (jobId, false)))
    (h3 : ∀ i, admin.jobPoll i = .status false) :
    waitForJobCompletion admin.jobPoll 30000 2000
        = { completed := false, timedOut := true } ∧
      (reorderCollectionProducts admin cat collectionId sortedProductIds
        originalSortType).1
        = { success := true, jobId := some jobId, error := none } := by
  constructor
  · exact waitPolls_never_done admin.jobPoll h3 _ 0
  · unfold reorderCollectionProducts updateCollectionSortOrder
    rw [h1, h2]
    simp

/-- Witness for C8: a concrete run whose job polls never report done still
returns success with the job id. -/
theorem reorder_job_timeout_still_reports_success_witness :
    waitForJobCompletion (fun _ => .status false) 30000 2000
        = { completed := false, timedOut := true } ∧
      (reorderCollectionProducts
        { updateSortOrderResult := fun _ => .ok ()
          reorderResult := .ok (some ("job7", false))
          jobPoll := fun _ => .status false }
        { sortOrder := "CREATED" } "c2" ["p1"] "date_asc asc").1
        = { success := true, jobId := some "job7", error := none } :=
  reorder_job_timeout_still_reports_success
    { updateSortOrderResult := fun _ => .ok ()
      reorderResult := .ok (some ("job7", false))
      jobPoll := fun _ => .status false }
    { sortOrder := "CREATED" } "c2" "job7" ["p1"] "date_asc asc"
    rfl rfl (fun _ => rfl)
